import Mathlib

/-!
Verification of the rocket-file-cache sources against their specification.

The two files under src/ are embedded directly:
  * src/in_memory_file.rs : `InMemoryFile`, `FileStats`, `InMemoryFile::open`,
    the `Debug` formatter, and the derived `PartialEq` instances;
  * src/cached_file.rs : the `CachedFile` tri-state enum, its `Responder`
    implementation and its hand-written `PartialEq` implementation.

The collaborators that the two files use but that are not part of the sources
(tokio's filesystem primitives, rocket's `NamedFile`, the crate's
`NamedInMemoryFile` living in a file absent from src/) are modelled at their
interface boundary, as the specification prescribes.
-/

namespace RocketFileCache

/-- Statistics of a cached file (src/in_memory_file.rs, `FileStats`):
byte size, access count, and the derived priority score. -/
structure FileStats where
  size : Nat
  access_count : Nat
  priority : Nat
deriving DecidableEq, Repr

/-- A file held in memory (src/in_memory_file.rs, `InMemoryFile`):
its byte content together with its statistics. Bytes are modelled as a list
of naturals (each below 256 in any real execution; the bound plays no role
in the claims). -/
structure InMemoryFile where
  bytes : List Nat
  stats : FileStats
deriving DecidableEq, Repr

/-- The Rust `#[derive(PartialEq)]` comparison on `FileStats`: field-wise
equality of size, access count and priority. -/
def FileStats.eq (a b : FileStats) : Bool :=
  a.size == b.size && a.access_count == b.access_count && a.priority == b.priority

/-- The Rust `#[derive(PartialEq)]` comparison on `InMemoryFile`: field-wise
equality of the byte vector and of the statistics. -/
def InMemoryFile.eq (a b : InMemoryFile) : Bool :=
  a.bytes == b.bytes && FileStats.eq a.stats b.stats

/-- An I/O error produced by the filesystem collaborator. The core never
inspects it, so its payload is an opaque code. -/
structure IoError where
  code : Nat
deriving DecidableEq, Repr

/-- An open file handle produced by the filesystem collaborator
(tokio's `File`); opaque to the core. -/
structure File where
  id : Nat
deriving DecidableEq, Repr

/-- Embedding of `InMemoryFile::open` (src/in_memory_file.rs). The two
fallible collaborator calls — `File::open(path)` and
`reader.read_to_end(&mut bytes)` — are passed in as the functions `fileOpen`
and `readToEnd`; each `?` in the source becomes propagation of the `.error`
branch. `read_to_end` returns the number of bytes appended to the initially
empty vector, so `size` is the length of `bytes`. The stats are written
exactly as in the source: `access_count = 0`, `priority = 0`. -/
def InMemoryFile.open (fileOpen : String → Except IoError File)
    (readToEnd : File → Except IoError (List Nat)) (path : String) :
    Except IoError InMemoryFile :=
  match fileOpen path with
  | .error e => .error e
  | .ok file =>
    match readToEnd file with
    | .error e => .error e
    | .ok bytes =>
      .ok { bytes := bytes
            stats := { size := bytes.length, access_count := 0, priority := 0 } }

/-- Embedding of the `fmt::Debug` implementation for `InMemoryFile`
(src/in_memory_file.rs): the byte array is elided as "..." and only
`stats.size` and `stats.priority` are interpolated. -/
def InMemoryFile.debugFmt (f : InMemoryFile) : String :=
  "SizedFile \x7b bytes: ..., size: " ++ toString f.stats.size ++
    ", priority: " ++ toString f.stats.priority ++ " \x7d"

/-- Modelled from the spec: `NamedInMemoryFile` lives in
src/named_in_memory_file.rs, which is absent from the sources. Per the spec
the resident resolution carries a reference to the cache-owned record
(«Resident(reference to InMemoryRecord)») together with the lookup name; the
`(*self.file).get()` accessor used by src/cached_file.rs is modelled as
yielding that stored record. -/
structure NamedInMemoryFile where
  name : String
  file : InMemoryFile
deriving DecidableEq, Repr

/-- Modelled from the spec: rocket's `NamedFile` is an external collaborator
(«FilesystemOnly(path/handle)»): a path plus a handle to the on-disk content.
Its `path()` accessor, the only part src/cached_file.rs uses, yields the
stored path; the content the handle would serve is carried so that claims
about content-independence are statable. -/
structure NamedFile where
  path : String
  content : List Nat
deriving DecidableEq, Repr

/-- The tri-state resolution (src/cached_file.rs, `CachedFile`): resident in
memory, available on the filesystem, or absent. -/
inductive CachedFile where
  | InMemory (f : NamedInMemoryFile)
  | FileSystem (f : NamedFile)
  | NotFound
deriving DecidableEq, Repr

/-- Embedding of `impl PartialEq for CachedFile` (src/cached_file.rs): an
outer match on `self`, an inner match on `other`. In the `InMemory` branch
the source compares `(*rhs.file).get() == (*lhs.file).get()` — the derived
`InMemoryFile` equality, right-hand side first; in the `FileSystem` branch it
compares the paths; `NotFound` equals only `NotFound`, and all cross-variant
comparisons are `false`. -/
def CachedFile.eq (a b : CachedFile) : Bool :=
  match a with
  | .InMemory lhs_cached_file =>
    match b with
    | .InMemory rhs_cached_file => InMemoryFile.eq rhs_cached_file.file lhs_cached_file.file
    | .FileSystem _ => false
    | .NotFound => false
  | .FileSystem lhs_named_file =>
    match b with
    | .InMemory _ => false
    | .FileSystem rhs_named_file => lhs_named_file.path == rhs_named_file.path
    | .NotFound => false
  | .NotFound =>
    match b with
    | .InMemory _ => false
    | .FileSystem _ => false
    | .NotFound => true

/-- An HTTP status (rocket collaborator); only its numeric code matters to
the core. -/
structure Status where
  code : Nat
deriving DecidableEq, Repr

/-- The 404 status used by the `NotFound` arm of `respond_to`. -/
def Status.NotFound : Status := { code := 404 }

/-- An incoming request (rocket collaborator); opaque to the core. -/
structure Request where
  id : Nat
deriving DecidableEq, Repr

/-- A rendered response (rocket collaborator); opaque to the core. -/
structure Response where
  payload : Nat
deriving DecidableEq, Repr

/-- Embedding of `impl Responder for CachedFile::respond_to`
(src/cached_file.rs). The two inner responders — `NamedInMemoryFile`'s and
rocket's `NamedFile`'s — are external to this file and passed in as
collaborator functions; the `NotFound` arm returns `Err(Status::NotFound)`. -/
def CachedFile.respond_to
    (inMemoryResponder : NamedInMemoryFile → Request → Except Status Response)
    (namedFileResponder : NamedFile → Request → Except Status Response)
    (c : CachedFile) (request : Request) : Except Status Response :=
  match c with
  | .InMemory cached_file => inMemoryResponder cached_file request
  | .FileSystem named_file => namedFileResponder named_file request
  | .NotFound => .error Status.NotFound

/-- The derived `FileStats` comparison agrees with propositional equality. -/
lemma FileStats.statsEqTrueIff (a b : FileStats) : FileStats.eq a b = true ↔ a = b := by
  cases a
  cases b
  simp [FileStats.eq, and_assoc]

/-- The derived `InMemoryFile` comparison agrees with propositional equality. -/
lemma InMemoryFile.recordEqTrueIff (a b : InMemoryFile) :
    InMemoryFile.eq a b = true ↔ a = b := by
  cases a
  cases b
  simp [InMemoryFile.eq, FileStats.statsEqTrueIff]

/-- A priority function refuting C1 as stated: it maps an access count of
zero to a nonzero score. -/
def strictPriorityFunction : Nat → Nat → Nat := fun size access_count =>
  size + access_count + 1

/-- C1 (counterexample): for the priority function `strictPriorityFunction`,
a successful open of a one-byte file yields a record whose priority is 0,
which differs from PriorityFunction(size, 0) = 2: the priority field is set
to the constant 0 independently of the priority function. -/
theorem C1_counterexample :
    InMemoryFile.open (fun _ => .ok { id := 0 }) (fun _ => .ok [7]) "f.txt" =
      .ok { bytes := [7], stats := { size := 1, access_count := 0, priority := 0 } } ∧
    strictPriorityFunction 1 0 ≠ 0 := by
  exact ⟨rfl, by decide⟩

/-- C1 (amended): for every path whose filesystem read succeeds, the record
constructed by InMemoryFile::open has access_count = 0 and priority = 0 — a
constant written independently of the priority function; it coincides with
PriorityFunction(size, 0) exactly for those priority functions that map an
access count of zero to zero. -/
theorem C1_initial_stats (fileOpen : String → Except IoError File)
    (readToEnd : File → Except IoError (List Nat)) (path : String)
    (r : InMemoryFile)
    (h : InMemoryFile.open fileOpen readToEnd path = .ok r) :
    r.stats.access_count = 0 ∧ r.stats.priority = 0 ∧
      ∀ f : Nat → Nat → Nat, f r.stats.size 0 = 0 → r.stats.priority = f r.stats.size 0 := by
  unfold InMemoryFile.open at h
  cases hfo : fileOpen path with
  | error e => simp [hfo] at h
  | ok file =>
    cases hr : readToEnd file with
    | error e => simp [hfo, hr] at h
    | ok bytes =>
      simp only [hfo, hr, Except.ok.injEq] at h
      subst h
      exact ⟨rfl, rfl, fun f hf => hf.symm⟩

/-- C1 (witness for the amended theorem): concrete successful open. -/
theorem C1_initial_stats_witness :
    let r : InMemoryFile :=
      { bytes := [7], stats := { size := 1, access_count := 0, priority := 0 } }
    r.stats.access_count = 0 ∧ r.stats.priority = 0 ∧
      ∀ f : Nat → Nat → Nat, f r.stats.size 0 = 0 → r.stats.priority = f r.stats.size 0 :=
  C1_initial_stats (fun _ => .ok { id := 0 }) (fun _ => .ok [7]) "f.txt" _ rfl

/-- C2: for every record successfully constructed by InMemoryFile::open, the
stats.size field equals the length of the bytes vector; size is written once
at construction and InMemoryFile exposes no operation that alters it. -/
theorem C2_size_is_length (fileOpen : String → Except IoError File)
    (readToEnd : File → Except IoError (List Nat)) (path : String)
    (r : InMemoryFile)
    (h : InMemoryFile.open fileOpen readToEnd path = .ok r) :
    r.stats.size = r.bytes.length := by
  unfold InMemoryFile.open at h
  cases hfo : fileOpen path with
  | error e => simp [hfo] at h
  | ok file =>
    cases hr : readToEnd file with
    | error e => simp [hfo, hr] at h
    | ok bytes =>
      simp only [hfo, hr, Except.ok.injEq] at h
      subst h
      rfl

/-- C2 (witness): concrete successful open of a three-byte file. -/
theorem C2_size_is_length_witness :
    let r : InMemoryFile :=
      { bytes := [7, 8, 9], stats := { size := 3, access_count := 0, priority := 0 } }
    r.stats.size = r.bytes.length :=
  C2_size_is_length (fun _ => .ok { id := 0 }) (fun _ => .ok [7, 8, 9]) "f.txt" _ rfl

/-- C3 (counterexample): two resident resolutions over records with the very
same byte content [1] but different access counts (0 and 1) compare unequal,
because the source compares the whole derived record equality — bytes and
stats — not byte content alone. -/
theorem C3_counterexample :
    CachedFile.eq
        (.InMemory { name := "a",
                     file := { bytes := [1],
                               stats := { size := 1, access_count := 0, priority := 0 } } })
        (.InMemory { name := "a",
                     file := { bytes := [1],
                               stats := { size := 1, access_count := 1, priority := 0 } } })
      = false ∧
    (InMemoryFile.bytes
        { bytes := [1], stats := { size := 1, access_count := 0, priority := 0 } } =
      InMemoryFile.bytes
        { bytes := [1], stats := { size := 1, access_count := 1, priority := 0 } }) := by
  exact ⟨by decide, rfl⟩

/-- C3 (amended): for resident resolutions a and b,
CachedFile::InMemory(a) == CachedFile::InMemory(b) holds if and only if the
underlying records are equal as whole records — equal byte contents AND equal
statistics (size, access_count, priority); the path/name still plays no role. -/
theorem C3_inmemory_eq_iff (a b : NamedInMemoryFile) :
    CachedFile.eq (.InMemory a) (.InMemory b) = true ↔
      a.file.bytes = b.file.bytes ∧ a.file.stats = b.file.stats := by
  show InMemoryFile.eq b.file a.file = true ↔ _
  rw [InMemoryFile.recordEqTrueIff]
  cases hfa : a.file
  cases hfb : b.file
  simp [InMemoryFile.mk.injEq, eq_comm, and_comm]

/-- C4: two filesystem-only resolutions compare equal if and only if their
paths are equal, regardless of the byte contents behind the handles. -/
theorem C4_filesystem_eq_iff (f g : NamedFile) :
    CachedFile.eq (.FileSystem f) (.FileSystem g) = true ↔ f.path = g.path := by
  show (f.path == g.path) = true ↔ _
  exact beq_iff_eq

/-- C5: NotFound equals itself, and every comparison between two CachedFile
values of different variants is false. -/
theorem C5_notfound_singleton :
    CachedFile.eq .NotFound .NotFound = true ∧
    (∀ a f, CachedFile.eq (.InMemory a) (.FileSystem f) = false) ∧
    (∀ f a, CachedFile.eq (.FileSystem f) (.InMemory a) = false) ∧
    (∀ a, CachedFile.eq (.InMemory a) .NotFound = false) ∧
    (∀ a, CachedFile.eq .NotFound (.InMemory a) = false) ∧
    (∀ f, CachedFile.eq (.FileSystem f) .NotFound = false) ∧
    (∀ f, CachedFile.eq .NotFound (.FileSystem f) = false) :=
  ⟨rfl, fun _ _ => rfl, fun _ _ => rfl, fun _ => rfl, fun _ => rfl,
    fun _ => rfl, fun _ => rfl⟩

/-- C6: rendering the absent resolution always yields the NotFound error
status and never a successful response, for every request and whatever the
two inner responders do; the other two variants delegate to their inner
responder. -/
theorem C6_notfound_response
    (inMemoryResponder : NamedInMemoryFile → Request → Except Status Response)
    (namedFileResponder : NamedFile → Request → Except Status Response)
    (request : Request) :
    CachedFile.respond_to inMemoryResponder namedFileResponder .NotFound request =
      .error Status.NotFound ∧
    (∀ resp : Response,
      CachedFile.respond_to inMemoryResponder namedFileResponder .NotFound request ≠
        .ok resp) ∧
    (∀ f, CachedFile.respond_to inMemoryResponder namedFileResponder (.InMemory f) request =
      inMemoryResponder f request) ∧
    (∀ f, CachedFile.respond_to inMemoryResponder namedFileResponder (.FileSystem f) request =
      namedFileResponder f request) :=
  ⟨rfl, fun _ h => Except.noConfusion h, fun _ => rfl, fun _ => rfl⟩

/-- C7: every resolved-file value is exactly one of the three states —
resident in memory, available on the filesystem, or absent. -/
theorem C7_tri_state (c : CachedFile) :
    (∃ a, c = .InMemory a) ∨ (∃ f, c = .FileSystem f) ∨ c = .NotFound := by
  cases c with
  | InMemory a => exact Or.inl ⟨a, rfl⟩
  | FileSystem f => exact Or.inr (Or.inl ⟨f, rfl⟩)
  | NotFound => exact Or.inr (Or.inr rfl)

/-- C8: InMemoryFile::open propagates the filesystem collaborator's IoError
unmodified — it returns that exact error when the file open fails, that
exact error when the read fails, and succeeds (with the record built from
the bytes) exactly when both collaborator calls succeed. -/
theorem C8_io_error_propagation (fileOpen : String → Except IoError File)
    (readToEnd : File → Except IoError (List Nat)) (path : String) :
    (∀ e, fileOpen path = .error e →
      InMemoryFile.open fileOpen readToEnd path = .error e) ∧
    (∀ file e, fileOpen path = .ok file → readToEnd file = .error e →
      InMemoryFile.open fileOpen readToEnd path = .error e) ∧
    (∀ file bytes, fileOpen path = .ok file → readToEnd file = .ok bytes →
      InMemoryFile.open fileOpen readToEnd path =
        .ok { bytes := bytes
              stats := { size := bytes.length, access_count := 0, priority := 0 } }) := by
  refine ⟨fun e he => ?_, fun file e hf hr => ?_, fun file bytes hf hr => ?_⟩
  · simp [InMemoryFile.open, he]
  · simp [InMemoryFile.open, hf, hr]
  · simp [InMemoryFile.open, hf, hr]

/-- C8 (witness): concrete collaborators exercising all three branches. -/
theorem C8_io_error_propagation_witness :
    InMemoryFile.open (fun _ => .error { code := 5 }) (fun _ => .ok []) "p" =
      .error { code := 5 } ∧
    InMemoryFile.open (fun _ => .ok { id := 1 }) (fun _ => .error { code := 6 }) "p" =
      .error { code := 6 } ∧
    InMemoryFile.open (fun _ => .ok { id := 1 }) (fun _ => .ok [3, 4]) "p" =
      .ok { bytes := [3, 4], stats := { size := 2, access_count := 0, priority := 0 } } :=
  ⟨(C8_io_error_propagation (fun _ => .error { code := 5 }) (fun _ => .ok []) "p").1
      { code := 5 } rfl,
   (C8_io_error_propagation (fun _ => .ok { id := 1 })
      (fun _ => .error { code := 6 }) "p").2.1 { id := 1 } { code := 6 } rfl rfl,
   (C8_io_error_propagation (fun _ => .ok { id := 1 })
      (fun _ => .ok [3, 4]) "p").2.2 { id := 1 } [3, 4] rfl rfl⟩

/-- C9: the Debug formatting of an InMemoryFile depends only on its size and
priority statistics: any two files agreeing on those two fields — whatever
their bytes or access counts — format identically, so file contents cannot
leak into logs via Debug. -/
theorem C9_debug_independent_of_bytes (a b : InMemoryFile)
    (hsize : a.stats.size = b.stats.size)
    (hprio : a.stats.priority = b.stats.priority) :
    InMemoryFile.debugFmt a = InMemoryFile.debugFmt b := by
  unfold InMemoryFile.debugFmt
  rw [hsize, hprio]

/-- C9 (witness): two files with different bytes (and even different access
counts) but equal size and priority format identically. -/
theorem C9_debug_independent_of_bytes_witness :
    InMemoryFile.debugFmt
        { bytes := [1, 2], stats := { size := 2, access_count := 0, priority := 5 } } =
      InMemoryFile.debugFmt
        { bytes := [9], stats := { size := 2, access_count := 7, priority := 5 } } :=
  C9_debug_independent_of_bytes
    { bytes := [1, 2], stats := { size := 2, access_count := 0, priority := 5 } }
    { bytes := [9], stats := { size := 2, access_count := 7, priority := 5 } }
    rfl rfl

/-- C10: the equality implemented on CachedFile is reflexive, and symmetric
in the strong sense that the two comparison orders always return the same
boolean. -/
theorem C10_eq_refl_symm (a b : CachedFile) :
    CachedFile.eq a a = true ∧ CachedFile.eq a b = CachedFile.eq b a := by
  constructor
  · cases a with
    | InMemory f =>
      show InMemoryFile.eq f.file f.file = true
      rw [InMemoryFile.recordEqTrueIff]
    | FileSystem f =>
      show (f.path == f.path) = true
      simp
    | NotFound => rfl
  · cases a <;> cases b <;> try rfl
    case InMemory.InMemory fa fb =>
      show InMemoryFile.eq fb.file fa.file = InMemoryFile.eq fa.file fb.file
      rw [Bool.eq_iff_iff, InMemoryFile.recordEqTrueIff, InMemoryFile.recordEqTrueIff]
      exact eq_comm
    case FileSystem.FileSystem fa fb =>
      show (fa.path == fb.path) = (fb.path == fa.path)
      rw [Bool.eq_iff_iff, beq_iff_eq, beq_iff_eq]
      exact eq_comm

end RocketFileCache
